import Mathlib

/-!
Verification development for the langfuse-fastapi-example repository.

The repository is a FastAPI server wired to the Langfuse tracing SDK.
The handler code lives in src/app.py; the trace/span/generation lifecycle
(the TraceSession component of the specification: start_trace,
start_observation, close_observation, record_score) is implemented by the
external SDK, so those operations are modelled from the specification and
marked as such in their doc comments.  Handler-level definitions
(chat_completion, submit_feedback via record_score,
prompt_based_completion) are embedded from src/app.py.

Floats of the source (score values, temperatures) are modelled as
rationals; machine-level floating point never matters for the stated
properties (all comparisons are against 0, 1 and token counts are
integers).
-/

/-- Kind of an observation: a generic Span or an LLM-call Generation. -/
inductive ObsKind where
  | span
  | generation
deriving DecidableEq, Repr

/-- Usage as supplied on close: input and output token counts, with the
total optionally reported explicitly by the provider. -/
structure UsageInput where
  input_tokens : Nat
  output_tokens : Nat
  total_tokens : Option Nat
deriving DecidableEq, Repr

/-- Stored usage record of a closed Generation. -/
structure Usage where
  input_tokens : Nat
  output_tokens : Nat
  total_tokens : Nat
deriving DecidableEq, Repr

/-- Modelled from the spec: the usage-aggregation contract of
close_observation.  When no explicit total is given, total_tokens is
computed as input_tokens + output_tokens; an explicitly supplied
(provider) total is kept without recomputation. -/
def aggregateUsage (u : UsageInput) : Usage :=
  { input_tokens := u.input_tokens
    output_tokens := u.output_tokens
    total_tokens :=
      match u.total_tokens with
      | some t => t
      | none => u.input_tokens + u.output_tokens }

/-- Modelled from the spec: a warning is emitted (not a failure) when an
explicitly supplied total disagrees with the derived sum. -/
def usageWarns (u : UsageInput) : Bool :=
  match u.total_tokens with
  | some t => t != u.input_tokens + u.output_tokens
  | none => false

/-- A timed unit of work nested inside a trace.  The parent is the index
of the enclosing observation, or none for the trace root. -/
structure Observation where
  name : String
  kind : ObsKind
  parent : Option Nat
  input : Option String
  output : Option String
  model : Option String
  startedAt : Nat
  endedAt : Option Nat
  errored : Bool
  usage : Option Usage
deriving DecidableEq, Repr

/-- A trace: one end-to-end operation, with session and user attribution,
tags and caller metadata. -/
structure Trace where
  trace_id : String
  session_id : Option String
  user_id : Option String
  tags : List String
  metadata : List (String × String)
deriving DecidableEq, Repr

/-- A score record attached to a trace after the fact. -/
structure Score where
  trace_id : String
  name : String
  value : Rat
  comment : Option String
deriving DecidableEq, Repr

/-- Errors of the TraceSession operations. -/
inductive TError where
  | invalidState
  | validationError
deriving DecidableEq, Repr

/-- Modelled from the spec: the state of one TraceSession — the current
trace (none before the first start), the append-only list of
observations (a handle is an index into it), the nesting stack of open
observation handles (head = innermost), the finalized flag, and the
count of warnings emitted so far. -/
structure TraceSession where
  trace : Option Trace
  observations : List Observation
  stack : List Nat
  finalized : Bool
  warnings : Nat
deriving DecidableEq, Repr

/-- A fresh session: no trace, no observations, empty stack. -/
def freshSession : TraceSession :=
  { trace := none, observations := [], stack := [], finalized := false, warnings := 0 }

/-- Union of two tag lists as sets, keeping first-occurrence order. -/
def unionTags (old new : List String) : List String :=
  old ++ new.filter (fun t => !(old.contains t))

/-- Shallow merge of two metadata maps: keys of the new map win over the
old map, as in a Python dict merge. -/
def mergeMeta (old new : List (String × String)) : List (String × String) :=
  new ++ old.filter (fun p => ((new.lookup p.1).isNone : Bool))

/-- Modelled from the spec: start_trace, the operation behind the span
update_trace call of src/app.py.  It generates a trace_id when none is
supplied; calling again with the same externally supplied trace_id
merges (union of tags, shallow merge of metadata) rather than
overwriting. -/
def start_trace (s : TraceSession) (trace_id session_id user_id : Option String)
    (tags : List String) (metadata : List (String × String)) (freshId : String) :
    TraceSession :=
  match s.trace, trace_id with
  | some t, some tid =>
    if t.trace_id = tid then
      let merged : Trace :=
        { t with
          session_id := session_id.orElse (fun _ => t.session_id)
          user_id := user_id.orElse (fun _ => t.user_id)
          tags := unionTags t.tags tags
          metadata := mergeMeta t.metadata metadata }
      { s with trace := some merged }
    else
      { s with trace := some ⟨tid, session_id, user_id, tags, metadata⟩ }
  | none, some tid =>
    { s with trace := some ⟨tid, session_id, user_id, tags, metadata⟩ }
  | _, none =>
    { s with trace := some ⟨freshId, session_id, user_id, tags, metadata⟩ }

/-- Modelled from the spec: start_observation pushes a new observation
onto the nesting stack, parented to whichever observation is currently
open (the stack head) or to the trace root when the stack is empty.  It
fails with InvalidState after the owning trace has been finalized and
returns the handle of the new observation. -/
def start_observation (s : TraceSession) (kind : ObsKind) (name : String)
    (input : Option String) (model : Option String) (now : Nat) :
    Except TError (TraceSession × Nat) :=
  if s.finalized then
    .error .invalidState
  else
    let h := s.observations.length
    let obs : Observation :=
      { name := name, kind := kind, parent := s.stack.head?, input := input
        output := none, model := model, startedAt := now, endedAt := none
        errored := false, usage := none }
    .ok ({ s with observations := s.observations ++ [obs], stack := h :: s.stack }, h)

/-- Modelled from the spec: close_observation records the end time, the
output, the errored flag and (for a Generation) the aggregated usage,
and pops the nesting stack back to the handle's parent.  Closing an
unknown or already-closed handle is a no-op rather than an error. -/
def close_observation (s : TraceSession) (h : Nat) (now : Nat)
    (output : Option String) (usage : Option UsageInput) (errored : Bool) :
    TraceSession :=
  match s.observations[h]? with
  | none => s
  | some obs =>
    if obs.endedAt.isSome then s
    else
      { s with
        observations := s.observations.set h
          { obs with
            endedAt := some now
            output := output.orElse (fun _ => obs.output)
            usage := (usage.map aggregateUsage).orElse (fun _ => obs.usage)
            errored := errored }
        stack := (s.stack.dropWhile (fun x => x ≠ h)).tail
        warnings := s.warnings +
          (match usage with
           | some u => if usageWarns u then 1 else 0
           | none => 0) }

/-- Modelled from the spec: scoped acquisition and release.  The body
runs between start_observation and close_observation; when the body
raises (or is cancelled, which surfaces as a raise), the observation is
still closed, with the error recorded as the observation output and the
errored flag set, and the error is then re-raised to the caller. -/
def runGuarded (s : TraceSession) (kind : ObsKind) (name : String)
    (input : Option String) (model : Option String) (t0 t1 : Nat)
    (body : Except String String) :
    Except TError (TraceSession × Except String String) :=
  match start_observation s kind name input model t0 with
  | .error e => .error e
  | .ok (s1, h) =>
    match body with
    | .ok out => .ok (close_observation s1 h t1 (some out) none false, .ok out)
    | .error err => .ok (close_observation s1 h t1 (some err) none true, .error err)

/-- Truthiness-based defaulting of the Python expression x or default for
an optional string: Python treats both None and the empty string as
falsy, so an empty string falls through to the default. -/
def pyOrStr (x : Option String) (default : String) : String :=
  match x with
  | some s => if s = "" then default else s
  | none => default

/-- Embedding of the ChatMessage pydantic model of src/app.py. -/
structure ChatMessage where
  role : String
  content : String
deriving DecidableEq, Repr

/-- Embedding of the ChatRequest pydantic model of src/app.py.
Temperatures are rationals standing for the source floats; metadata is an
association list standing for the JSON object. -/
structure ChatRequest where
  messages : List ChatMessage
  model : String
  temperature : Rat
  max_tokens : Option Nat
  session_id : Option String
  user_id : Option String
  metadata : Option (List (String × String))
deriving DecidableEq, Repr

/-- Embedding of the ChatResponse pydantic model of src/app.py; usage is
the (prompt_tokens, completion_tokens, total_tokens) triple. -/
structure ChatResponse where
  response : String
  session_id : String
  trace_id : String
  usage : Option (Nat × Nat × Nat)
  model : String
deriving DecidableEq, Repr

/-- An HTTPException as raised by the handlers: status code plus detail. -/
structure HTTPException where
  status_code : Nat
  detail : String
deriving DecidableEq, Repr

/-- A chat completion returned by the external provider: generated text,
echoed model name and token usage. -/
structure Completion where
  content : String
  model : String
  prompt_tokens : Nat
  completion_tokens : Nat
  total_tokens : Nat
deriving DecidableEq, Repr

/-- Embedding of prepare_messages of src/app.py: ChatMessage objects
become (role, content) pairs. -/
def prepare_messages (messages : List ChatMessage) : List (String × String) :=
  messages.map (fun msg => (msg.role, msg.content))

/-- Rendering of a prepared message list into the string payload stored
as an observation input. -/
def renderMessages (messages : List (String × String)) : String :=
  String.intercalate "; " (messages.map (fun m => m.1 ++ ": " ++ m.2))

/-- The trace a successful chat_completion records when the tracing sink
is up: the TraceSession operations mirroring the two nested with-blocks
of chat_completion (src/app.py lines 164-217) — open the chat_completion
span, update the trace, open the openai_completion generation, close the
generation with the provider output and all three token counts, close
the span. -/
def chatTrace (req : ChatRequest) (session_id : String) (c : Completion)
    (freshTraceId : String) : TraceSession :=
  let msgs := prepare_messages req.messages
  match start_observation freshSession .span "chat_completion"
      (some (renderMessages msgs)) none 0 with
  | .error _ => freshSession
  | .ok (s1, hSpan) =>
    let s2 := start_trace s1 none (some session_id) req.user_id
      ["api", "chat"] (req.metadata.getD []) freshTraceId
    match start_observation s2 .generation "openai_completion"
        (some (renderMessages msgs)) (some req.model) 0 with
    | .error _ => s2
    | .ok (s3, hGen) =>
      let s4 := close_observation s3 hGen 1 (some c.content)
        (some ⟨c.prompt_tokens, c.completion_tokens, some c.total_tokens⟩) false
      close_observation s4 hSpan 2 (some c.content) none false

/-- Embedding of the chat_completion handler (src/app.py lines 151-233).
The provider call and the fresh UUID4 strings are explicit inputs, and
the sink-assigned current trace id is an explicit optional input.  The
tracing client is Modelled from the spec: its operations never raise,
and a tracing-sink outage (sinkUp = false) degrades to no trace being
recorded.  The second component is the trace recorded at the sink, none
when no trace is recorded. -/
def chat_completion (req : ChatRequest) (provider : Except String Completion)
    (freshSessionUuid freshTraceUuid : String) (sinkTraceId : Option String)
    (sinkUp : Bool) : Except HTTPException ChatResponse × Option TraceSession :=
  let session_id := pyOrStr req.session_id freshSessionUuid
  match provider with
  | .error e => (.error ⟨500, e⟩, none)
  | .ok c =>
    let trace_id := if sinkUp then sinkTraceId else none
    (.ok { response := c.content
           session_id := session_id
           trace_id := pyOrStr trace_id freshTraceUuid
           usage := some (c.prompt_tokens, c.completion_tokens, c.total_tokens)
           model := c.model },
     if sinkUp then
       some (chatTrace req session_id c ((trace_id).getD freshTraceUuid))
     else none)

/-- Embedding of the FeedbackRequest pydantic model of src/app.py: the
score field carries the constraints ge 0.0 and le 1.0.  Score values are
rationals standing for the source floats. -/
structure FeedbackRequest where
  trace_id : String
  score : Rat
  comment : Option String
  name : String
deriving DecidableEq, Repr

/-- Embedding of the pydantic validation of FeedbackRequest: a request
whose score lies outside the closed interval from 0 to 1 is rejected
with a ValidationError before the handler body runs. -/
def validate_feedback (trace_id : String) (score : Rat) (comment : Option String)
    (name : String) : Except TError FeedbackRequest :=
  if 0 ≤ score ∧ score ≤ 1 then
    .ok ⟨trace_id, score, comment, name⟩
  else
    .error .validationError

/-- Modelled from the spec: the sink's score store is an append-only
list; create_score appends one immutable record. -/
def create_score (sink : List Score) (trace_id name : String) (value : Rat)
    (comment : Option String) : List Score :=
  sink ++ [⟨trace_id, name, value, comment⟩]

/-- Embedding of the submit_feedback handler (src/app.py lines 236-257)
combined with its pydantic validation: record_score validates the value
and on success appends the score record to the sink; on failure no
record is stored.  This is the record_score operation of the spec. -/
def record_score (sink : List Score) (trace_id : String) (score : Rat)
    (comment : Option String) (name : String) : Except TError (List Score) :=
  match validate_feedback trace_id score comment name with
  | .error e => .error e
  | .ok req => .ok (create_score sink req.trace_id req.name req.score req.comment)

/-- Embedding of the prompt_templates dictionary of
prompt_based_completion (src/app.py lines 270-275). -/
def prompt_templates : List (String × String) :=
  [("summarize", "Summarize the following text in a concise manner:\n\n{text}"),
   ("translate", "Translate the following text to {target_language}:\n\n{text}"),
   ("explain", "Explain the following concept in simple terms:\n\n{concept}"),
   ("code_review", "Review the following code and provide suggestions:\n\n{code}")]

/-- Character-level worker for pyFormat: outside a placeholder an opening
brace switches into key-reading mode; a closing brace looks the
accumulated key up in the variables, failing like a Python KeyError when
it is absent. -/
def pyFormatGo (vars : List (String × String)) (inKey : Bool) (key : List Char) :
    List Char → Except String (List Char)
  | [] => if inKey then .error "ValueError: unbalanced placeholder" else .ok []
  | c :: cs =>
    if inKey then
      if c = Char.ofNat 125 then
        match vars.lookup (String.mk key.reverse) with
        | none => .error ("KeyError: " ++ String.mk key.reverse)
        | some v => (pyFormatGo vars false [] cs).map (fun tl => v.data ++ tl)
      else
        pyFormatGo vars true (c :: key) cs
    else
      if c = Char.ofNat 123 then
        pyFormatGo vars true [] cs
      else
        (pyFormatGo vars false [] cs).map (fun tl => c :: tl)

/-- Embedding of the Python str.format call of src/app.py line 283 on the
simple single-brace templates used there: substitutes each placeholder
from the variables, raising (as an error value) when a placeholder has no
matching variable. -/
def pyFormat (tmpl : String) (vars : List (String × String)) : Except String String :=
  (pyFormatGo vars false [] tmpl.data).map String.mk

/-- Embedding of the PromptRequest pydantic model of src/app.py. -/
structure PromptRequest where
  prompt_name : String
  template_variables : Option (List (String × String))
  model : String
  temperature : Rat
  session_id : Option String
  user_id : Option String
deriving DecidableEq, Repr

/-- The JSON object returned by a successful prompt_based_completion. -/
structure PromptResponse where
  response : String
  prompt_name : String
  session_id : String
  trace_id : String
  usage : Nat × Nat × Nat
deriving DecidableEq, Repr

/-- Embedding of the prompt_based_completion handler (src/app.py lines
260-328).  The whole body runs inside one try block whose except
Exception clause re-raises any exception e as HTTPException(500, str(e));
in particular the HTTPException(404) raised for an unknown prompt name is
itself an Exception, so it is caught and rewrapped with status 500.
Inner exceptions are modelled as their str(e) rendering. -/
def prompt_based_completion (req : PromptRequest) (provider : Except String Completion)
    (freshSessionUuid freshTraceUuid : String) (sinkTraceId : Option String)
    (sinkUp : Bool) : Except HTTPException PromptResponse :=
  let inner : Except String PromptResponse :=
    let session_id := pyOrStr req.session_id freshSessionUuid
    match prompt_templates.lookup req.prompt_name with
    | none => .error ("404: Prompt \x27" ++ req.prompt_name ++ "\x27 not found")
    | some tmpl =>
      let formatted : Except String String :=
        match req.template_variables with
        | some vars => pyFormat tmpl vars
        | none => .ok tmpl
      match formatted with
      | .error e => .error e
      | .ok _ =>
        match provider with
        | .error e => .error e
        | .ok c =>
          let tid := if sinkUp then sinkTraceId else none
          .ok { response := c.content
                prompt_name := req.prompt_name
                session_id := session_id
                trace_id := pyOrStr tid freshTraceUuid
                usage := (c.prompt_tokens, c.completion_tokens, c.total_tokens) }
  match inner with
  | .ok r => .ok r
  | .error e => .error ⟨500, e⟩

/-- Session state after starting one openai_completion Generation on a
fresh session, used as a concrete scenario state. -/
def genSession : TraceSession :=
  { trace := none
    observations := [⟨"openai_completion", .generation, none, none, none, none, 0,
      none, false, none⟩]
    stack := [0]
    finalized := false
    warnings := 0 }

/-- Session state after starting one Span named outer on a fresh
session, used as a concrete scenario state. -/
def spanSession : TraceSession :=
  { trace := none
    observations := [⟨"outer", .span, none, none, none, none, 0, none, false, none⟩]
    stack := [0]
    finalized := false
    warnings := 0 }

/-- Scenario state for the nesting claim: open Span outer, then
Generation inner, then close inner and outer in order, starting from a
fresh session. -/
def outerInner : TraceSession :=
  match start_observation freshSession .span "outer" none none 0 with
  | .error _ => freshSession
  | .ok (s1, hOuter) =>
    match start_observation s1 .generation "inner" none none 1 with
    | .error _ => s1
    | .ok (s2, hInner) =>
      close_observation (close_observation s2 hInner 2 none none false)
        hOuter 3 none none false

/-- Session state after a first start_trace call with external id t1,
session s1 and tag set containing a. -/
def traceCallA : TraceSession :=
  start_trace freshSession (some "t1") (some "s1") none ["a"] [] "unused-fresh"

/-- A demo chat request whose supplied session_id is the empty string. -/
def reqEmptySession : ChatRequest :=
  { messages := [⟨"user", "hi"⟩]
    model := "gpt-3.5-turbo"
    temperature := 7/10
    max_tokens := some 500
    session_id := some ""
    user_id := none
    metadata := none }

/-- A demo chat request whose supplied session_id is the non-empty
string s1. -/
def reqWithSession : ChatRequest :=
  { messages := [⟨"user", "hi"⟩]
    model := "gpt-3.5-turbo"
    temperature := 7/10
    max_tokens := some 500
    session_id := some "s1"
    user_id := none
    metadata := none }

/-- A demo provider completion. -/
def compDemo : Completion :=
  { content := "hello"
    model := "gpt-3.5-turbo"
    prompt_tokens := 10
    completion_tokens := 20
    total_tokens := 30 }

/-- A demo prompt request whose prompt_name matches none of the four
template keys. -/
def reqUnknownPrompt : PromptRequest :=
  { prompt_name := "nope"
    template_variables := none
    model := "gpt-3.5-turbo"
    temperature := 7/10
    session_id := none
    user_id := none }

/-- C6: close_observation is idempotent — calling it a second time on the
same handle is a no-op, not an error: the session state after two calls
(with any arguments for the second) equals the state after one call. -/
theorem close_observation_idempotent (s : TraceSession) (h t t2 : Nat)
    (out out2 : Option String) (u u2 : Option UsageInput) (e e2 : Bool) :
    close_observation (close_observation s h t out u e) h t2 out2 u2 e2 =
      close_observation s h t out u e := by
  unfold close_observation
  cases hobs : s.observations[h]? with
  | none => simp [hobs]
  | some obs =>
    by_cases hend : obs.endedAt.isSome
    · simp [hobs, hend]
    · have hlt : h < s.observations.length := (List.getElem?_eq_some.mp hobs).1
      simp [hobs, hend, List.getElem?_set_self hlt]

/-- C1: usage aggregation contract of close_observation.  Closing a
freshly started Generation with usage where input_tokens and
output_tokens are given stores total_tokens = input_tokens +
output_tokens when no explicit total is supplied, and keeps the explicit
(provider) total when one is supplied; when the explicit total differs
from the sum a warning is emitted and the close still succeeds (the
observation ends up closed, never a failure). -/
theorem usage_aggregation_contract (s : TraceSession) (nm : String)
    (inp mdl out : Option String) (t0 t1 i o : Nat) (t : Option Nat)
    (s1 : TraceSession) (h : Nat)
    (hstart : start_observation s .generation nm inp mdl t0 = .ok (s1, h)) :
    (((close_observation s1 h t1 out (some ⟨i, o, t⟩) false).observations[h]?).map
        (fun ob => (ob.usage, ob.endedAt)) =
      some (some ⟨i, o, match t with | some tv => tv | none => i + o⟩, some t1)) ∧
    (close_observation s1 h t1 out (some ⟨i, o, t⟩) false).warnings =
      s.warnings + (match t with
                    | some tv => if tv = i + o then 0 else 1
                    | none => 0) := by
  unfold start_observation at hstart
  by_cases hfin : s.finalized
  · simp [hfin] at hstart
  · simp [hfin] at hstart
    obtain ⟨hs1, hh⟩ := hstart
    subst hs1
    subst hh
    constructor
    · have hlt : s.observations.length <
          (s.observations ++
            [(⟨nm, .generation, s.stack.head?, inp, none, mdl, t0, none, false,
              none⟩ : Observation)]).length := by
        simp
      simp [close_observation, List.getElem?_concat_length,
        List.getElem?_set_self hlt, aggregateUsage]
    · simp [close_observation, List.getElem?_concat_length, usageWarns]
      cases t with
      | none => simp
      | some tv =>
        by_cases htv : tv = i + o <;> simp [htv]

/-- Witness for usage_aggregation_contract: closing the concrete
generation with input_tokens 10 and output_tokens 20 stores total 30
when no explicit total is given, and keeps the explicit total 25
(emitting one warning) when one is given. -/
theorem usage_aggregation_contract_witness :
    ((((close_observation genSession 0 1 none (some ⟨10, 20, none⟩) false).observations[0]?).map
        (fun ob => (ob.usage, ob.endedAt)) = some (some ⟨10, 20, 30⟩, some 1)) ∧
      (close_observation genSession 0 1 none (some ⟨10, 20, none⟩) false).warnings = 0) ∧
    ((((close_observation genSession 0 1 none (some ⟨10, 20, some 25⟩) false).observations[0]?).map
        (fun ob => (ob.usage, ob.endedAt)) = some (some ⟨10, 20, 25⟩, some 1)) ∧
      (close_observation genSession 0 1 none (some ⟨10, 20, some 25⟩) false).warnings = 1) :=
  ⟨usage_aggregation_contract freshSession "openai_completion" none none none 0 1 10 20 none
      genSession 0 rfl,
    usage_aggregation_contract freshSession "openai_completion" none none none 0 1 10 20
      (some 25) genSession 0 rfl⟩

/-- C8: balanced push/pop — for every observation opened by
start_observation and then closed by close_observation (normally or with
the errored flag forced), the nesting stack depth after the close equals
the depth before the open. -/
theorem balanced_push_pop (s : TraceSession) (k : ObsKind) (nm : String)
    (inp mdl out : Option String) (t0 t1 : Nat) (u : Option UsageInput)
    (err : Bool) (s1 : TraceSession) (h : Nat)
    (hstart : start_observation s k nm inp mdl t0 = .ok (s1, h)) :
    (close_observation s1 h t1 out u err).stack.length = s.stack.length := by
  unfold start_observation at hstart
  by_cases hfin : s.finalized
  · simp [hfin] at hstart
  · simp [hfin] at hstart
    obtain ⟨hs1, hh⟩ := hstart
    subst hs1
    subst hh
    simp [close_observation, List.getElem?_concat_length, List.dropWhile]

/-- Witness for balanced_push_pop: opening a span on the fresh session
and closing it with the errored flag set leaves the stack depth at the
fresh session's depth. -/
theorem balanced_push_pop_witness :
    (close_observation spanSession 0 1 none none true).stack.length =
      freshSession.stack.length :=
  balanced_push_pop freshSession .span "outer" none none none 0 1 none true
    spanSession 0 rfl

/-- C7: nesting parentage — start_observation parents the new
observation to whichever observation is currently open (the head of the
nesting stack; the trace root when none is), and in the concrete
scenario opening Span outer then Generation inner and closing both in
order yields exactly two observations with inner's parent being outer
(handle 0) and outer's parent being the trace root (none), both
closed. -/
theorem nesting_parentage :
    (∀ (s : TraceSession) (k : ObsKind) (nm : String) (inp mdl : Option String)
        (t0 : Nat) (s1 : TraceSession) (h : Nat),
      start_observation s k nm inp mdl t0 = .ok (s1, h) →
        (s1.observations[h]?).map (fun ob => ob.parent) = some s.stack.head?) ∧
    ((outerInner.observations[1]?).map (fun ob => (ob.name, ob.parent, ob.endedAt)) =
        some ("inner", some 0, some 2) ∧
      (outerInner.observations[0]?).map (fun ob => (ob.name, ob.parent, ob.endedAt)) =
        some ("outer", none, some 3) ∧
      outerInner.observations.length = 2) := by
  constructor
  · intro s k nm inp mdl t0 s1 h hstart
    unfold start_observation at hstart
    by_cases hfin : s.finalized
    · simp [hfin] at hstart
    · simp [hfin] at hstart
      obtain ⟨hs1, hh⟩ := hstart
      subst hs1
      subst hh
      simp [List.getElem?_concat_length]
  · refine ⟨?_, ?_, ?_⟩ <;> decide

/-- Witness for nesting_parentage: applied to the fresh session, the
span opened on it is parented to the trace root. -/
theorem nesting_parentage_witness :
    (spanSession.observations[0]?).map (fun ob => ob.parent) =
      some freshSession.stack.head? :=
  nesting_parentage.1 freshSession .span "outer" none none 0 spanSession 0 rfl

/-- C3: error-path closure — when the guarded body of an observation
raises (surfacing as an error value), the observation is still closed:
its ended_at is set, its errored flag is true, the error is recorded as
the observation's output, and the error is re-raised to the caller; the
observation remains present in the session (never silently dropped). -/
theorem error_path_closure (s : TraceSession) (k : ObsKind) (nm : String)
    (inp mdl : Option String) (t0 t1 : Nat) (e : String)
    (hfin : s.finalized = false) :
    ∃ s1, runGuarded s k nm inp mdl t0 t1 (.error e) = .ok (s1, .error e) ∧
      (s1.observations[s.observations.length]?).map
          (fun ob => (ob.endedAt, ob.errored, ob.output)) =
        some (some t1, true, some e) := by
  unfold runGuarded start_observation
  simp only [hfin]
  simp only [Bool.false_eq_true, if_false]
  refine ⟨_, rfl, ?_⟩
  have hlt : s.observations.length <
      (s.observations ++
        [(⟨nm, k, s.stack.head?, inp, none, mdl, t0, none, false,
          none⟩ : Observation)]).length := by
    simp
  simp [close_observation, List.getElem?_concat_length, List.getElem?_set_self hlt]

/-- Witness for error_path_closure: a guarded span body raising the
error boom on the fresh session still yields a closed, errored
observation with the error as output, and the error is re-raised. -/
theorem error_path_closure_witness :
    ∃ s1, runGuarded freshSession .span "chat_completion" none none 0 1
        (.error "boom") = .ok (s1, .error "boom") ∧
      (s1.observations[freshSession.observations.length]?).map
          (fun ob => (ob.endedAt, ob.errored, ob.output)) =
        some (some 1, true, some "boom") :=
  error_path_closure freshSession .span "chat_completion" none none 0 1 "boom" rfl

/-- Membership in unionTags is membership in either argument: the tag
lists behave as sets under union. -/
theorem mem_unionTags (old new : List String) (x : String) :
    x ∈ unionTags old new ↔ x ∈ old ∨ x ∈ new := by
  simp only [unionTags, List.mem_append, List.mem_filter]
  constructor
  · rintro (h | ⟨h, -⟩)
    · exact .inl h
    · exact .inr h
  · rintro (h | h)
    · exact .inl h
    · by_cases hx : x ∈ old
      · exact .inl hx
      · exact .inr ⟨h, by simpa using hx⟩

/-- Lookup distributes over list append, preferring the left list. -/
theorem lookup_append (l1 l2 : List (String × String)) (k : String) :
    (l1 ++ l2).lookup k = ((l1.lookup k).orElse (fun _ => l2.lookup k)) := by
  induction l1 with
  | nil => simp [List.lookup]
  | cons a tl ih =>
    obtain ⟨k1, v⟩ := a
    by_cases h : k = k1
    · simp [List.lookup, h]
    · have hbeq : (k == k1) = false := beq_eq_false_iff_ne.mpr h
      simp [List.lookup, hbeq, ih]

/-- Filtering out the keys present in another map does not change lookup
at a key that other map does not have. -/
theorem lookup_filter_of_lookup_none (old new : List (String × String)) (k : String)
    (hk : new.lookup k = none) :
    (old.filter (fun p => ((new.lookup p.1).isNone : Bool))).lookup k =
      old.lookup k := by
  induction old with
  | nil => simp
  | cons a tl ih =>
    obtain ⟨k1, v⟩ := a
    by_cases h : k = k1
    · subst h
      simp [List.filter, hk, List.lookup]
    · have hbeq : (k == k1) = false := beq_eq_false_iff_ne.mpr h
      by_cases hpred : (new.lookup k1).isNone
      · simp [List.filter, hpred, List.lookup, hbeq, ih]
      · simp [List.filter, hpred, List.lookup, hbeq, ih]

/-- Lookup in a shallow merge prefers the new map and falls back to the
old one, matching a Python dict merge where new keys win. -/
theorem lookup_mergeMeta (old new : List (String × String)) (k : String) :
    (mergeMeta old new).lookup k =
      ((new.lookup k).orElse (fun _ => old.lookup k)) := by
  unfold mergeMeta
  rw [lookup_append]
  cases hnew : new.lookup k with
  | some v => simp [Option.orElse]
  | none => simp [Option.orElse, lookup_filter_of_lookup_none old new k hnew]

/-- C5: start_trace merge idempotence — calling start_trace again with
the same externally supplied trace_id merges rather than overwrites: the
resulting tag list is the set union of both calls' tags, and the
metadata maps are shallow-merged (a key of the second call wins,
otherwise the first call's value survives). -/
theorem start_trace_merge (s : TraceSession) (t : Trace)
    (sid uid : Option String) (tags2 : List String)
    (md2 : List (String × String)) (fr : String)
    (ht : s.trace = some t) :
    ∃ t2, (start_trace s (some t.trace_id) sid uid tags2 md2 fr).trace = some t2 ∧
      t2.trace_id = t.trace_id ∧
      (∀ x, x ∈ t2.tags ↔ (x ∈ t.tags ∨ x ∈ tags2)) ∧
      (∀ k, t2.metadata.lookup k =
        ((md2.lookup k).orElse (fun _ => t.metadata.lookup k))) := by
  unfold start_trace
  rw [ht]
  simp only [if_pos rfl]
  exact ⟨_, rfl, rfl, fun x => mem_unionTags t.tags tags2 x,
    fun k => lookup_mergeMeta t.metadata md2 k⟩

/-- Witness for start_trace_merge: after start_trace with external id t1
and tag set containing a, a second start_trace with the same id and tag
set containing b yields one trace whose tags are exactly the union. -/
theorem start_trace_merge_witness :
    ∃ t2, (start_trace traceCallA (some "t1") (some "s1") none ["b"] []
        "unused-fresh").trace = some t2 ∧
      t2.trace_id = "t1" ∧
      (∀ x, x ∈ t2.tags ↔ (x ∈ ["a"] ∨ x ∈ ["b"])) ∧
      (∀ k, t2.metadata.lookup k =
        ((List.lookup k ([] : List (String × String))).orElse
          (fun _ => List.lookup k ([] : List (String × String))))) :=
  start_trace_merge traceCallA ⟨"t1", some "s1", none, ["a"], []⟩
    (some "s1") none ["b"] [] "unused-fresh" rfl

/-- C2: score value validation — for every value v in the closed
interval from 0 to 1, record_score succeeds and the stored record's
value equals v exactly (appended to the sink unchanged); for every v
outside the interval, record_score fails with a ValidationError and the
result carries no sink (no score record is stored). -/
theorem score_value_validation (sink : List Score) (tid : String)
    (cm : Option String) (nm : String) (v : Rat) :
    (0 ≤ v → v ≤ 1 →
      record_score sink tid v cm nm = .ok (sink ++ [⟨tid, nm, v, cm⟩])) ∧
    (¬ (0 ≤ v ∧ v ≤ 1) →
      record_score sink tid v cm nm = .error .validationError) := by
  constructor
  · intro h0 h1
    simp [record_score, validate_feedback, create_score, h0, h1]
  · intro h
    simp [record_score, validate_feedback, h]

/-- Witness for score_value_validation: the value 1/2 is stored exactly,
and the out-of-range value 2 is rejected with a ValidationError. -/
theorem score_value_validation_witness :
    (record_score [] "trace-1" (1/2) none "user-feedback" =
      .ok [⟨"trace-1", "user-feedback", 1/2, none⟩]) ∧
    (record_score [] "trace-1" 2 none "user-feedback" =
      .error .validationError) :=
  ⟨(score_value_validation [] "trace-1" none "user-feedback" (1/2)).1
      (by norm_num) (by norm_num),
    (score_value_validation [] "trace-1" none "user-feedback" 2).2 (by norm_num)⟩

/-- C4: tracing failure isolation — for a chat request whose
completion-provider call succeeds, a tracing-sink outage (sinkUp false)
never causes the request to fail: the handler still returns the
provider's answer (with the locally generated trace id), no trace is
recorded (the only degradation), and the answer text is the same one a
healthy-sink run returns. -/
theorem tracing_failure_isolation (req : ChatRequest) (c : Completion)
    (fu ft : String) (stid : Option String) :
    (chat_completion req (.ok c) fu ft stid false).1 =
      .ok ⟨c.content, pyOrStr req.session_id fu, ft,
        some (c.prompt_tokens, c.completion_tokens, c.total_tokens), c.model⟩ ∧
    (chat_completion req (.ok c) fu ft stid false).2 = none ∧
    (chat_completion req (.ok c) fu ft stid false).1.toOption.map
        (fun r => r.response) =
      (chat_completion req (.ok c) fu ft stid true).1.toOption.map
        (fun r => r.response) := by
  refine ⟨?_, ?_, ?_⟩ <;> simp [chat_completion, pyOrStr, Except.toOption]

/-- C9 counterexample: a chat request that supplies the session_id
empty string does not get it echoed back — the handler's truthiness
test (Python or) treats the empty string like None, so the response's
session_id is the freshly generated UUID instead of the supplied
value. -/
theorem session_id_echo_counterexample :
    reqEmptySession.session_id = some "" ∧
    (chat_completion reqEmptySession (.ok compDemo)
        "123e4567-e89b-42d3-a456-426614174000" "t" none true).1.toOption.map
      (fun r => r.session_id) = some "123e4567-e89b-42d3-a456-426614174000" ∧
    ("123e4567-e89b-42d3-a456-426614174000" : String) ≠ "" := by
  refine ⟨rfl, ?_, by decide⟩
  simp [chat_completion, reqEmptySession, pyOrStr, Except.toOption]

/-- C9 amended: for every chat request that supplies a non-empty
session_id, the response's session_id equals the supplied value
unchanged; when the request supplies none — or supplies the empty
string, which the handler's truthiness test treats the same way — the
response's session_id is the freshly generated UUID4 string. -/
theorem session_id_echo_amended (req : ChatRequest) (c : Completion)
    (fu ft : String) (stid : Option String) (b : Bool) :
    (∀ sid, req.session_id = some sid → sid ≠ "" →
      (chat_completion req (.ok c) fu ft stid b).1.toOption.map
        (fun r => r.session_id) = some sid) ∧
    ((req.session_id = none ∨ req.session_id = some "") →
      (chat_completion req (.ok c) fu ft stid b).1.toOption.map
        (fun r => r.session_id) = some fu) := by
  constructor
  · intro sid hsid hne
    simp [chat_completion, pyOrStr, hsid, hne, Except.toOption]
  · rintro (h | h) <;> simp [chat_completion, pyOrStr, h, Except.toOption]

/-- Witness for session_id_echo_amended: the supplied non-empty
session_id s1 is echoed back unchanged. -/
theorem session_id_echo_amended_witness :
    (chat_completion reqWithSession (.ok compDemo) "fresh-uuid" "ft" none
        true).1.toOption.map (fun r => r.session_id) = some "s1" :=
  (session_id_echo_amended reqWithSession compDemo "fresh-uuid" "ft" none true).1
    "s1" rfl (by decide)

/-- C10: unknown prompt name surfaces as 500, not 404 — for every
prompt-completion request whose prompt_name is not one of the four
template keys, the HTTPException(404) raised inside the handler's try
block is caught by the generic except-Exception clause and re-raised as
an HTTPException with status code 500, so the caller observes status
500. -/
theorem unknown_prompt_surfaces_500 (req : PromptRequest)
    (provider : Except String Completion) (fu ft : String)
    (stid : Option String) (b : Bool)
    (hname : req.prompt_name ∉ prompt_templates.map Prod.fst) :
    prompt_based_completion req provider fu ft stid b =
      .error ⟨500, "404: Prompt \x27" ++ req.prompt_name ++ "\x27 not found"⟩ := by
  simp only [prompt_templates, List.map, List.mem_cons, List.not_mem_nil,
    or_false, not_or] at hname
  obtain ⟨h1, h2, h3, h4⟩ := hname
  simp [prompt_based_completion, prompt_templates, List.lookup,
    beq_eq_false_iff_ne.mpr h1, beq_eq_false_iff_ne.mpr h2,
    beq_eq_false_iff_ne.mpr h3, beq_eq_false_iff_ne.mpr h4]

/-- Witness for unknown_prompt_surfaces_500: the concrete prompt name
nope yields an HTTPException whose status code is 500. -/
theorem unknown_prompt_surfaces_500_witness :
    prompt_based_completion reqUnknownPrompt (.ok compDemo) "fu" "ft" none true =
      .error ⟨500, "404: Prompt \x27nope\x27 not found"⟩ :=
  unknown_prompt_surfaces_500 reqUnknownPrompt (.ok compDemo) "fu" "ft" none true
    (by decide)
